import Mathlib

/-!
# Artificial potential field agent: embedding of `src/src/agent.cpp` and `src/include/param.h`

The C++ code works on `double` and on the Eigen type `Vector3d`.  The embedding reads the
arithmetic over an ordered field `K` (the theorems take `K = ℝ`).  The Eigen
`norm()` is the square root of the sum of the squared coordinates; the square
root function is a parameter `sqrt` of every definition that needs a norm, and
the theorems instantiate it with `Real.sqrt`.  The member `agent_id` and the loop counters
are natural numbers.

Division comes in two readings.  The definitions `u_goal`, `repulsion`, ..., `apf_controller`
use the field division, which is total (`x / 0 = 0`); the general equalities proved about
them that involve a possibly zero norm have the same quotient on both sides.  A quotient by
zero has no real value, and the `double` code does not produce one either: at distance zero
lines 179 and 189 compute `1 / 0 = inf` and then `inf * 0 = NaN`.  The definitions
`u_goal_checked`, `repulsion_checked`, ..., `apf_controller_checked` therefore follow the same
lines with every division checked, and have the value `none` as soon as a divisor is zero;
the bound on the command is stated on them.

`std::vector` members are lists; `number_of_agents` and `number_of_obstacles`
are the lengths of `agent_positions` and `obstacles` (the constructor resizes
both vectors to these counts, lines 28-33).
-/

namespace apf

/-! ## Data model -/

/-- Eigen `Vector3d`: three coordinates. -/
@[ext] structure Vector3d (K : Type) where
  x : K
  y : K
  z : K
deriving DecidableEq, Repr

namespace Vector3d

variable {K : Type} [LinearOrderedField K]

instance : Zero (Vector3d K) := ⟨⟨0, 0, 0⟩⟩
instance : Add (Vector3d K) := ⟨fun a b => ⟨a.x + b.x, a.y + b.y, a.z + b.z⟩⟩
instance : Sub (Vector3d K) := ⟨fun a b => ⟨a.x - b.x, a.y - b.y, a.z - b.z⟩⟩

/-- Scalar times vector, `c * v` in Eigen. -/
def smul (c : K) (v : Vector3d K) : Vector3d K := ⟨c * v.x, c * v.y, c * v.z⟩

/-- Vector times scalar, `v * c` in Eigen. -/
def muls (v : Vector3d K) (c : K) : Vector3d K := ⟨v.x * c, v.y * c, v.z * c⟩

/-- Vector divided by scalar, `v / c` in Eigen. -/
def divs (v : Vector3d K) (c : K) : Vector3d K := ⟨v.x / c, v.y / c, v.z / c⟩

instance : HMul K (Vector3d K) (Vector3d K) := ⟨smul⟩
instance : HMul (Vector3d K) K (Vector3d K) := ⟨muls⟩
instance : HDiv (Vector3d K) K (Vector3d K) := ⟨divs⟩

/-- Eigen `squaredNorm()`. -/
def squaredNorm (v : Vector3d K) : K := v.x * v.x + v.y * v.y + v.z * v.z

/-- Eigen `norm()`: the square root of `squaredNorm()`. -/
def norm (sqrt : K → K) (v : Vector3d K) : K := sqrt (squaredNorm v)

end Vector3d

/-- The class `Param` of `param.h` (numeric members). -/
structure Param (K : Type) where
  dt : K
  radius : K
  max_acc : K
  zeta : K
  damp : K
  obs : K
  q : K
  infinity : K

/-- The member initialisers of `param.h`, lines 16-28. -/
def Param.default (K : Type) [LinearOrderedField K] : Param K where
  dt := 0.02
  radius := 0.15
  max_acc := 6
  zeta := 1.0
  damp := 1.0
  obs := 20.0
  q := 3.0
  infinity := 100000

/-- The agent state: position and velocity. -/
structure State (K : Type) where
  position : Vector3d K
  velocity : Vector3d K

/-- A static spherical obstacle. -/
structure Obstacle (K : Type) where
  position : Vector3d K
  radius : K

/-- The data members of `ApfAgent` that the control loop reads and writes. -/
structure ApfAgent (K : Type) where
  param : Param K
  agent_id : Nat
  goal : Vector3d K
  agent_positions : List (Vector3d K)
  obstacles : List (Obstacle K)
  state : State K

section Code

variable {K : Type} [LinearOrderedField K]

/-- The value of `number_of_agents`: the size of `agent_positions`. -/
def ApfAgent.number_of_agents (a : ApfAgent K) : Nat := a.agent_positions.length

/-- The value of `number_of_obstacles`: the size of `obstacles`. -/
def ApfAgent.number_of_obstacles (a : ApfAgent K) : Nat := a.obstacles.length

/-! ## `apf_controller` (agent.cpp, lines 154-212) -/

/-- Attraction force, lines 157-165. -/
def u_goal (sqrt : K → K) (a : ApfAgent K) : Vector3d K :=
  if Vector3d.norm sqrt (a.goal - a.state.position) < 1 then
    a.param.zeta * (a.goal - a.state.position)
  else
    (a.param.zeta * (a.goal - a.state.position)) / Vector3d.norm sqrt (a.goal - a.state.position)

/-- The right-hand side of lines 179 and 189 for a source at `p` with influence radius `Q`:
`param.obs * ((1 / Q - 1 / distance) * 1 / (distance * distance) * (p - position) / distance)`,
with the total field division; `repulsion_checked` is the same expression with checked
divisions. -/
def repulsion (sqrt : K → K) (a : ApfAgent K) (Q : K) (p : Vector3d K) : Vector3d K :=
  let distance := Vector3d.norm sqrt (p - a.state.position)
  a.param.obs *
    ((((1 / Q - 1 / distance) * 1 / (distance * distance)) * (p - a.state.position)) / distance)

/-- One iteration of the loop over the agents, lines 173-180. -/
def peer_step (sqrt : K → K) (a : ApfAgent K) (u_obs : Vector3d K) (id : Nat)
    (p : Vector3d K) : Vector3d K :=
  if a.agent_id = id then u_obs
  else
    let distance := Vector3d.norm sqrt (p - a.state.position)
    let Q := a.param.q * (2 * a.param.radius)
    if distance < Q then u_obs + repulsion sqrt a Q p else u_obs

/-- One iteration of the loop over the obstacles, lines 186-190. -/
def obstacle_step (sqrt : K → K) (a : ApfAgent K) (u_obs : Vector3d K)
    (o : Obstacle K) : Vector3d K :=
  let distance := Vector3d.norm sqrt (o.position - a.state.position)
  let Q := a.param.q * (a.param.radius + o.radius)
  if distance < Q then repulsion sqrt a Q o.position else u_obs

/-- The loop over the agents, lines 171-181, started from the current value of `u_obs`. -/
def peer_loop (sqrt : K → K) (a : ApfAgent K) (u_obs : Vector3d K) : Vector3d K :=
  a.agent_positions.enum.foldl (fun u ip => peer_step sqrt a u ip.1 ip.2) u_obs

/-- The loop over the obstacles, lines 184-191, started from the current value of `u_obs`. -/
def obstacle_loop (sqrt : K → K) (a : ApfAgent K) (u_obs : Vector3d K) : Vector3d K :=
  a.obstacles.foldl (fun u o => obstacle_step sqrt a u o) u_obs

/-- Repulsion force: the value of `u_obs` after both loops, lines 168-191. -/
def u_obs (sqrt : K → K) (a : ApfAgent K) : Vector3d K :=
  obstacle_loop sqrt a (peer_loop sqrt a 0)

/-- Damping force, line 194. -/
def u_damp (a : ApfAgent K) : Vector3d K := (-a.param.damp) * a.state.velocity

/-- Net force before clamping, line 196. -/
def net_force (sqrt : K → K) (a : ApfAgent K) : Vector3d K :=
  u_goal sqrt a + u_obs sqrt a + u_damp a

/-- The body of the clamping loop for one coordinate, lines 201-208. -/
def clamp_axis (max_acc : K) (ui : K) : K :=
  if ui > max_acc then max_acc
  else if ui < -max_acc then -max_acc
  else ui

/-- The clamping loop over the three coordinates, lines 199-209. -/
def clamp (max_acc : K) (u : Vector3d K) : Vector3d K :=
  ⟨clamp_axis max_acc u.x, clamp_axis max_acc u.y, clamp_axis max_acc u.z⟩

/-- The acceleration command returned by `ApfAgent::apf_controller`. -/
def apf_controller (sqrt : K → K) (a : ApfAgent K) : Vector3d K :=
  clamp a.param.max_acc (net_force sqrt a)

/-! ## `update_state` (lines 123-130) -/

/-- Lines 128-129 of `ApfAgent::update_state` for a command `u`: the position is advanced
first, with the velocity from before the step, then the velocity. -/
def integrate (u : Vector3d K) (a : ApfAgent K) : ApfAgent K :=
  let position :=
    a.state.position + (a.state.velocity * a.param.dt + ((0.5 : K) * u) * a.param.dt * a.param.dt)
  let velocity := a.state.velocity + u * a.param.dt
  { a with state := { position := position, velocity := velocity } }

/-- The method `ApfAgent::update_state`: line 125 computes the command from the state before
the step, lines 128-129 integrate it. -/
def update_state (sqrt : K → K) (a : ApfAgent K) : ApfAgent K :=
  integrate (apf_controller sqrt a) a

/-! ## `listen_tf` and the control tick (lines 66-71, 105-121) -/

/-- The method `ApfAgent::listen_tf`.  Here `lookup id` is the outcome of `lookupTransform`
for the frame of agent `id`: `some p` is a transform with translation `p`, `none` is a thrown
`TransformException`.  The catch block only logs a warning; control then reaches line 118
with the message `t` as it was default-constructed at line 108 (a ROS 2 message, whose
default constructor zeroes the translation), and that translation is stored at line 119. -/
def listen_tf (lookup : Nat → Option (Vector3d K)) (a : ApfAgent K) : ApfAgent K :=
  { a with agent_positions :=
      (List.range a.number_of_agents).map fun id =>
        match lookup id with
        | some p => p
        | none => ⟨0, 0, 0⟩ }

/-- The method `ApfAgent::timer_tf_callback`: `listen_tf` then `update_state`
(`broadcast_tf` only publishes the new position). -/
def timer_tf_callback (sqrt : K → K) (lookup : Nat → Option (Vector3d K))
    (a : ApfAgent K) : ApfAgent K :=
  update_state sqrt (listen_tf lookup a)

/-! ## `collision_check` (lines 78-103) -/

/-- A line written to `std::cout` by `collision_check`.  An obstacle message carries the loop
index `obs_id` at which it is written, next to the printed distance. -/
inductive CollisionMessage (K : Type) where
  | agents (min_dist : K)
  | obstacle (obs_id : Nat) (dist : K)

/-- The loop of lines 82-89: the least distance to another agent, starting at
`param.infinity`. -/
def min_dist (sqrt : K → K) (a : ApfAgent K) : K :=
  a.agent_positions.enum.foldl
    (fun m ip =>
      let dist := Vector3d.norm sqrt (ip.2 - a.state.position)
      if ip.1 ≠ a.agent_id ∧ dist < m then dist else m)
    a.param.infinity

/-- The method `ApfAgent::collision_check`: the messages it prints, in order. -/
def collision_check (sqrt : K → K) (a : ApfAgent K) : List (CollisionMessage K) :=
  (if min_dist sqrt a < 2 * a.param.radius then [CollisionMessage.agents (min_dist sqrt a)] else [])
  ++ a.obstacles.enum.filterMap fun io =>
      let dist := Vector3d.norm sqrt (io.2.position - a.state.position)
      if dist < a.param.radius + io.2.radius then some (CollisionMessage.obstacle io.1 dist)
      else none

/-- The run of `collision_check` prints an obstacle message at loop index `k`. -/
def reports_obstacle (sqrt : K → K) (a : ApfAgent K) (k : Nat) : Prop :=
  ∃ dist, CollisionMessage.obstacle k dist ∈ collision_check sqrt a

/-! ## `apf_controller` with checked divisions -/

/-- Scalar quotient `x / y`, which has a value only when the divisor is not zero. -/
def div_checked (x y : K) : Option K :=
  if y = 0 then none else some (x / y)

/-- Quotient `v / c` of a vector by a scalar, which has a value only when the divisor is not
zero. -/
def Vector3d.divs_checked (v : Vector3d K) (c : K) : Option (Vector3d K) :=
  if c = 0 then none else some (v / c)

/-- Attraction force, lines 157-165, with the division of line 164 checked. -/
def u_goal_checked (sqrt : K → K) (a : ApfAgent K) : Option (Vector3d K) :=
  if Vector3d.norm sqrt (a.goal - a.state.position) < 1 then
    some (a.param.zeta * (a.goal - a.state.position))
  else
    Vector3d.divs_checked (a.param.zeta * (a.goal - a.state.position))
      (Vector3d.norm sqrt (a.goal - a.state.position))

/-- The right-hand side of lines 179 and 189 with its four divisions checked, in the order
in which the expression nests them: `1 / Q`, `1 / distance`, the quotient by
`distance * distance`, the quotient by `distance`. -/
def repulsion_checked (sqrt : K → K) (a : ApfAgent K) (Q : K) (p : Vector3d K) :
    Option (Vector3d K) :=
  let distance := Vector3d.norm sqrt (p - a.state.position)
  (div_checked 1 Q).bind fun inv_Q =>
  (div_checked 1 distance).bind fun inv_distance =>
  (div_checked ((inv_Q - inv_distance) * 1) (distance * distance)).bind fun scale =>
  (Vector3d.divs_checked (scale * (p - a.state.position)) distance).map fun direction =>
    a.param.obs * direction

/-- One iteration of the loop over the agents, lines 173-180, on a running value `u_obs`
that may already have no value: `+=` has a value only when both operands have one. -/
def peer_step_checked (sqrt : K → K) (a : ApfAgent K) (u_obs : Option (Vector3d K))
    (id : Nat) (p : Vector3d K) : Option (Vector3d K) :=
  if a.agent_id = id then u_obs
  else
    let distance := Vector3d.norm sqrt (p - a.state.position)
    let Q := a.param.q * (2 * a.param.radius)
    if distance < Q then
      u_obs.bind fun u => (repulsion_checked sqrt a Q p).map fun r => u + r
    else u_obs

/-- One iteration of the loop over the obstacles, lines 186-190: the assignment of line 189
replaces the running value, whether it had a value or not. -/
def obstacle_step_checked (sqrt : K → K) (a : ApfAgent K) (u_obs : Option (Vector3d K))
    (o : Obstacle K) : Option (Vector3d K) :=
  let distance := Vector3d.norm sqrt (o.position - a.state.position)
  let Q := a.param.q * (a.param.radius + o.radius)
  if distance < Q then repulsion_checked sqrt a Q o.position else u_obs

/-- Repulsion force with checked divisions: both loops of lines 168-191, started from
`u_obs = (0, 0, 0)`. -/
def u_obs_checked (sqrt : K → K) (a : ApfAgent K) : Option (Vector3d K) :=
  a.obstacles.foldl (fun u o => obstacle_step_checked sqrt a u o)
    (a.agent_positions.enum.foldl (fun u ip => peer_step_checked sqrt a u ip.1 ip.2)
      (some 0))

/-- Net force before clamping, line 196, with checked divisions. -/
def net_force_checked (sqrt : K → K) (a : ApfAgent K) : Option (Vector3d K) :=
  (u_goal_checked sqrt a).bind fun g =>
  (u_obs_checked sqrt a).map fun r => g + r + u_damp a

/-- The command of `ApfAgent::apf_controller` with checked divisions: the clamped net force
when every division that enters it has a nonzero divisor, and `none` otherwise.  In the
`double` code the net force is then `NaN` in every coordinate, both comparisons of lines 201
and 205 are false, and `NaN` is returned. -/
def apf_controller_checked (sqrt : K → K) (a : ApfAgent K) : Option (Vector3d K) :=
  (net_force_checked sqrt a).map (clamp a.param.max_acc)

/-- Every coordinate of `u` lies in `[-max_acc, max_acc]`. -/
def within_bound (max_acc : K) (u : Vector3d K) : Prop :=
  (-max_acc ≤ u.x ∧ u.x ≤ max_acc) ∧ (-max_acc ≤ u.y ∧ u.y ≤ max_acc) ∧
    (-max_acc ≤ u.z ∧ u.z ≤ max_acc)

/-! ## The repulsion term as the specification words it -/

/-- The contribution of one repulsive source at `p` with influence radius `Q`, as written in
the specification: `obs*(1/Q - 1/distance)*(1/distance^2)*(p - position)/distance`. -/
def contribution (sqrt : K → K) (a : ApfAgent K) (Q : K) (p : Vector3d K) : Vector3d K :=
  let distance := Vector3d.norm sqrt (p - a.state.position)
  (a.param.obs * (1 / Q - 1 / distance) * (1 / distance ^ 2)) * ((p - a.state.position) / distance)

/-- Peer `ip.1` at `ip.2` is another agent and is closer than `Q = q*2*radius`. -/
def peer_in_range (sqrt : K → K) (a : ApfAgent K) (ip : Nat × Vector3d K) : Prop :=
  ip.1 ≠ a.agent_id ∧
    Vector3d.norm sqrt (ip.2 - a.state.position) < a.param.q * 2 * a.param.radius

instance (sqrt : K → K) (a : ApfAgent K) (ip : Nat × Vector3d K) :
    Decidable (peer_in_range sqrt a ip) := by
  unfold peer_in_range; infer_instance

/-- Obstacle `o` is closer than `Q = q*(radius + obstacle_radius)`. -/
def obstacle_in_range (sqrt : K → K) (a : ApfAgent K) (o : Obstacle K) : Prop :=
  Vector3d.norm sqrt (o.position - a.state.position) < a.param.q * (a.param.radius + o.radius)

instance (sqrt : K → K) (a : ApfAgent K) (o : Obstacle K) :
    Decidable (obstacle_in_range sqrt a o) := by
  unfold obstacle_in_range; infer_instance

/-- The vector sum of the contributions of all in-range peers. -/
def u_peers (sqrt : K → K) (a : ApfAgent K) : Vector3d K :=
  ((a.agent_positions.enum.filter fun ip => decide (peer_in_range sqrt a ip)).map
    fun ip => contribution sqrt a (a.param.q * 2 * a.param.radius) ip.2).sum

/-- The command computed with peer `j` left out of the repulsion sum, as C3 words it: the
loops of `apf_controller` run with the entry of index `j` removed from the enumeration of
`agent_positions`. -/
def apf_controller_without_peer (sqrt : K → K) (a : ApfAgent K) (j : Nat) : Vector3d K :=
  clamp a.param.max_acc
    (u_goal sqrt a
      + obstacle_loop sqrt a
          ((a.agent_positions.enum.filter fun ip => decide (ip.1 ≠ j)).foldl
            (fun u ip => peer_step sqrt a u ip.1 ip.2) 0)
      + u_damp a)

/-- The repulsion term as C10 describes it: the contribution of the last in-range obstacle
in list order when there is one, and otherwise the sum over the in-range peers. -/
def u_obs_last_obstacle (sqrt : K → K) (a : ApfAgent K) : Vector3d K :=
  match (a.obstacles.filter fun o => decide (obstacle_in_range sqrt a o)).getLast? with
  | some o => contribution sqrt a (a.param.q * (a.param.radius + o.radius)) o.position
  | none => u_peers sqrt a

end Code

/-! ## Concrete configurations -/

section Scenarios

variable (K : Type) [LinearOrderedField K]

/-- An agent alone in the field, at rest at `position`, with the parameters of `param.h`. -/
def lone_agent (position goal : Vector3d K) : ApfAgent K where
  param := Param.default K
  agent_id := 0
  goal := goal
  agent_positions := [position]
  obstacles := []
  state := ⟨position, ⟨0, 0, 0⟩⟩

/-- Agent 0 at rest at the origin, which is also its goal, with the parameters of `param.h`,
one peer at `(0.5, 0, 0)` and one obstacle of radius `0.15` at `(0, 0.5, 0)`: both are at
distance `0.5`, inside their influence radius `0.9`. -/
def crowded_agent : ApfAgent K where
  param := Param.default K
  agent_id := 0
  goal := ⟨0, 0, 0⟩
  agent_positions := [⟨0, 0, 0⟩, ⟨0.5, 0, 0⟩]
  obstacles := [⟨⟨0, 0.5, 0⟩, 0.15⟩]
  state := ⟨⟨0, 0, 0⟩, ⟨0, 0, 0⟩⟩

/-- Agent 0 alone at rest at the origin, with the parameters of `param.h` (`radius = 0.15`),
and one obstacle of radius `r` centred at `(1, 0, 0)`.  With `r = 0.85` the two surfaces
touch. -/
def agent_near_obstacle (r : K) : ApfAgent K where
  param := Param.default K
  agent_id := 0
  goal := ⟨0, 0, 0⟩
  agent_positions := [⟨0, 0, 0⟩]
  obstacles := [⟨⟨1, 0, 0⟩, r⟩]
  state := ⟨⟨0, 0, 0⟩, ⟨0, 0, 0⟩⟩

/-- Agent 0 at rest at the origin, which is also its goal, with the parameters of `param.h`,
one peer at `(0.9, 0, 0)` and one obstacle of radius `0.15` at `(0, 0.9, 0)`: both are
exactly at their influence radius `0.9`. -/
def boundary_agent : ApfAgent K where
  param := Param.default K
  agent_id := 0
  goal := ⟨0, 0, 0⟩
  agent_positions := [⟨0, 0, 0⟩, ⟨0.9, 0, 0⟩]
  obstacles := [⟨⟨0, 0.9, 0⟩, 0.15⟩]
  state := ⟨⟨0, 0, 0⟩, ⟨0, 0, 0⟩⟩

/-- Agent 0 of two, at rest at its goal `(0.5, 0, 0)`, with the parameters of `param.h`
and no obstacle; the position last stored for agent 1 is `(3, 0, 0)`. -/
def lost_peer_agent : ApfAgent K where
  param := Param.default K
  agent_id := 0
  goal := ⟨0.5, 0, 0⟩
  agent_positions := [⟨0.5, 0, 0⟩, ⟨3, 0, 0⟩]
  obstacles := []
  state := ⟨⟨0.5, 0, 0⟩, ⟨0, 0, 0⟩⟩

/-- A tick in which the lookup of agent 0 gives `(0.5, 0, 0)` and every other lookup throws. -/
def lost_peer_lookup (id : Nat) : Option (Vector3d K) :=
  if id = 0 then some ⟨0.5, 0, 0⟩ else none

/-- Agent 0 of two, at rest at the origin, which is also its goal, with the parameters of
`param.h` and no obstacle; the position stored for agent 1 is the origin as well (as
`listen_tf` stores it after a failed lookup). -/
def coincident_agent : ApfAgent K where
  param := Param.default K
  agent_id := 0
  goal := ⟨0, 0, 0⟩
  agent_positions := [⟨0, 0, 0⟩, ⟨0, 0, 0⟩]
  obstacles := []
  state := ⟨⟨0, 0, 0⟩, ⟨0, 0, 0⟩⟩

end Scenarios

/-! ## Vector algebra -/

namespace Vector3d

variable {K : Type} [LinearOrderedField K]

@[simp] theorem zero_x : (0 : Vector3d K).x = 0 := rfl
@[simp] theorem zero_y : (0 : Vector3d K).y = 0 := rfl
@[simp] theorem zero_z : (0 : Vector3d K).z = 0 := rfl
@[simp] theorem add_x (a b : Vector3d K) : (a + b).x = a.x + b.x := rfl
@[simp] theorem add_y (a b : Vector3d K) : (a + b).y = a.y + b.y := rfl
@[simp] theorem add_z (a b : Vector3d K) : (a + b).z = a.z + b.z := rfl
@[simp] theorem sub_x (a b : Vector3d K) : (a - b).x = a.x - b.x := rfl
@[simp] theorem sub_y (a b : Vector3d K) : (a - b).y = a.y - b.y := rfl
@[simp] theorem sub_z (a b : Vector3d K) : (a - b).z = a.z - b.z := rfl
@[simp] theorem smul_x (c : K) (v : Vector3d K) : (c * v).x = c * v.x := rfl
@[simp] theorem smul_y (c : K) (v : Vector3d K) : (c * v).y = c * v.y := rfl
@[simp] theorem smul_z (c : K) (v : Vector3d K) : (c * v).z = c * v.z := rfl
@[simp] theorem muls_x (v : Vector3d K) (c : K) : (v * c).x = v.x * c := rfl
@[simp] theorem muls_y (v : Vector3d K) (c : K) : (v * c).y = v.y * c := rfl
@[simp] theorem muls_z (v : Vector3d K) (c : K) : (v * c).z = v.z * c := rfl
@[simp] theorem divs_x (v : Vector3d K) (c : K) : (v / c).x = v.x / c := rfl
@[simp] theorem divs_y (v : Vector3d K) (c : K) : (v / c).y = v.y / c := rfl
@[simp] theorem divs_z (v : Vector3d K) (c : K) : (v / c).z = v.z / c := rfl

theorem zero_def : (0 : Vector3d K) = ⟨0, 0, 0⟩ := rfl

theorem mk_add_mk (a b c d e f : K) :
    (⟨a, b, c⟩ + ⟨d, e, f⟩ : Vector3d K) = ⟨a + d, b + e, c + f⟩ := rfl

theorem mk_sub_mk (a b c d e f : K) :
    (⟨a, b, c⟩ - ⟨d, e, f⟩ : Vector3d K) = ⟨a - d, b - e, c - f⟩ := rfl

theorem smul_mk (k a b c : K) : (k * (⟨a, b, c⟩ : Vector3d K)) = ⟨k * a, k * b, k * c⟩ := rfl

theorem mk_divs (k a b c : K) : ((⟨a, b, c⟩ : Vector3d K) / k) = ⟨a / k, b / k, c / k⟩ := rfl

theorem add_assoc3 (a b c : Vector3d K) : a + b + c = a + (b + c) := by
  ext <;> simp [add_assoc]

theorem zero_add3 (a : Vector3d K) : 0 + a = a := by
  ext <;> simp

theorem add_zero3 (a : Vector3d K) : a + 0 = a := by
  ext <;> simp

theorem squaredNorm_nonneg (v : Vector3d K) : 0 ≤ squaredNorm v := by
  unfold squaredNorm
  nlinarith [mul_self_nonneg v.x, mul_self_nonneg v.y, mul_self_nonneg v.z]

theorem squaredNorm_smul (c : K) (v : Vector3d K) :
    squaredNorm (c * v) = (c * c) * squaredNorm v := by
  simp only [squaredNorm, smul_x, smul_y, smul_z]
  ring

theorem squaredNorm_divs (v : Vector3d K) (c : K) :
    squaredNorm (v / c) = squaredNorm v / (c * c) := by
  simp only [squaredNorm, divs_x, divs_y, divs_z]
  ring

theorem norm_smul (c : ℝ) (v : Vector3d ℝ) :
    norm Real.sqrt (c * v) = |c| * norm Real.sqrt v := by
  unfold norm
  rw [squaredNorm_smul, Real.sqrt_mul (mul_self_nonneg c), Real.sqrt_mul_self_eq_abs]

theorem norm_divs (v : Vector3d ℝ) (c : ℝ) :
    norm Real.sqrt (v / c) = norm Real.sqrt v / |c| := by
  unfold norm
  rw [squaredNorm_divs, Real.sqrt_div (squaredNorm_nonneg v), Real.sqrt_mul_self_eq_abs]

/-- The norm of a vector on the first axis. -/
theorem norm_axis_x (c : ℝ) : norm Real.sqrt ⟨c, 0, 0⟩ = |c| := by
  simp [norm, squaredNorm, Real.sqrt_mul_self_eq_abs]

/-- The norm of a vector on the second axis. -/
theorem norm_axis_y (c : ℝ) : norm Real.sqrt ⟨0, c, 0⟩ = |c| := by
  simp [norm, squaredNorm, Real.sqrt_mul_self_eq_abs]

end Vector3d

/-! ## Saturation -/

section Saturation

variable {K : Type} [LinearOrderedField K]

theorem clamp_axis_mem (m u : K) (h : 0 ≤ m) :
    -m ≤ clamp_axis m u ∧ clamp_axis m u ≤ m := by
  unfold clamp_axis
  split_ifs with h1 h2
  · exact ⟨by linarith, le_refl m⟩
  · exact ⟨le_refl _, by linarith⟩
  · exact ⟨not_lt.mp h2, not_lt.mp h1⟩

theorem clamp_axis_id (m u : K) (h1 : u ≤ m) (h2 : -m ≤ u) : clamp_axis m u = u := by
  unfold clamp_axis
  rw [if_neg (not_lt.mpr h1), if_neg (not_lt.mpr h2)]

end Saturation

theorem clamp_within_bound {K : Type} [LinearOrderedField K] (m : K) (u : Vector3d K)
    (h : 0 ≤ m) : within_bound m (clamp m u) :=
  ⟨clamp_axis_mem _ _ h, clamp_axis_mem _ _ h, clamp_axis_mem _ _ h⟩

/-! ## Checked divisions -/

theorem div_checked_of_ne {K : Type} [LinearOrderedField K] (x y : K) (h : y ≠ 0) :
    div_checked x y = some (x / y) := by
  unfold div_checked
  rw [if_neg h]

theorem divs_checked_of_ne {K : Type} [LinearOrderedField K] (v : Vector3d K) (c : K)
    (h : c ≠ 0) : Vector3d.divs_checked v c = some (v / c) := by
  unfold Vector3d.divs_checked
  rw [if_neg h]

theorem repulsion_checked_of_ne {K : Type} [LinearOrderedField K] (sqrt : K → K)
    (a : ApfAgent K) (Q : K) (p : Vector3d K) (hQ : Q ≠ 0)
    (hd : Vector3d.norm sqrt (p - a.state.position) ≠ 0) :
    repulsion_checked sqrt a Q p = some (repulsion sqrt a Q p) := by
  unfold repulsion_checked repulsion
  simp only
  rw [div_checked_of_ne 1 Q hQ, Option.some_bind, div_checked_of_ne 1 _ hd, Option.some_bind,
    div_checked_of_ne _ _ (mul_ne_zero hd hd), Option.some_bind, divs_checked_of_ne _ _ hd,
    Option.map_some']

theorem u_goal_checked_eq (a : ApfAgent ℝ) :
    u_goal_checked Real.sqrt a = some (u_goal Real.sqrt a) := by
  unfold u_goal_checked u_goal
  by_cases h : Vector3d.norm Real.sqrt (a.goal - a.state.position) < 1
  · rw [if_pos h, if_pos h]
  · rw [if_neg h, if_neg h, divs_checked_of_ne]
    intro h0
    rw [h0] at h
    exact h one_pos

theorem peer_step_checked_some (a : ApfAgent ℝ) (u : Vector3d ℝ) (id : Nat) (p : Vector3d ℝ)
    (h : a.agent_id ≠ id →
      Vector3d.norm Real.sqrt (p - a.state.position) < a.param.q * (2 * a.param.radius) →
      Vector3d.norm Real.sqrt (p - a.state.position) ≠ 0) :
    peer_step_checked Real.sqrt a (some u) id p = some (peer_step Real.sqrt a u id p) := by
  unfold peer_step_checked peer_step
  by_cases hid : a.agent_id = id
  · rw [if_pos hid, if_pos hid]
  · rw [if_neg hid, if_neg hid]
    simp only
    by_cases hlt :
        Vector3d.norm Real.sqrt (p - a.state.position) < a.param.q * (2 * a.param.radius)
    · have hQ : a.param.q * (2 * a.param.radius) ≠ 0 :=
        ne_of_gt (lt_of_le_of_lt (Real.sqrt_nonneg _) hlt)
      rw [if_pos hlt, if_pos hlt, repulsion_checked_of_ne Real.sqrt a _ p hQ (h hid hlt)]
      rfl
    · rw [if_neg hlt, if_neg hlt]

theorem obstacle_step_checked_some (a : ApfAgent ℝ) (u : Vector3d ℝ) (o : Obstacle ℝ)
    (h : Vector3d.norm Real.sqrt (o.position - a.state.position)
        < a.param.q * (a.param.radius + o.radius) →
      Vector3d.norm Real.sqrt (o.position - a.state.position) ≠ 0) :
    obstacle_step_checked Real.sqrt a (some u) o = some (obstacle_step Real.sqrt a u o) := by
  unfold obstacle_step_checked obstacle_step
  simp only
  by_cases hlt : Vector3d.norm Real.sqrt (o.position - a.state.position)
      < a.param.q * (a.param.radius + o.radius)
  · have hQ : a.param.q * (a.param.radius + o.radius) ≠ 0 :=
      ne_of_gt (lt_of_le_of_lt (Real.sqrt_nonneg _) hlt)
    rw [if_pos hlt, if_pos hlt, repulsion_checked_of_ne Real.sqrt a _ _ hQ (h hlt)]
  · rw [if_neg hlt, if_neg hlt]

theorem peer_fold_checked (a : ApfAgent ℝ) (l : List (Nat × Vector3d ℝ)) (u : Vector3d ℝ)
    (h : ∀ ip ∈ l, a.agent_id ≠ ip.1 →
      Vector3d.norm Real.sqrt (ip.2 - a.state.position) < a.param.q * (2 * a.param.radius) →
      Vector3d.norm Real.sqrt (ip.2 - a.state.position) ≠ 0) :
    l.foldl (fun u ip => peer_step_checked Real.sqrt a u ip.1 ip.2) (some u)
      = some (l.foldl (fun u ip => peer_step Real.sqrt a u ip.1 ip.2) u) := by
  induction l generalizing u with
  | nil => rfl
  | cons ip ips ih =>
    rw [List.foldl_cons, List.foldl_cons,
      peer_step_checked_some a u ip.1 ip.2 (h ip (List.mem_cons_self ip ips)),
      ih _ (fun x hx => h x (List.mem_cons_of_mem ip hx))]

theorem obstacle_fold_checked (a : ApfAgent ℝ) (l : List (Obstacle ℝ)) (u : Vector3d ℝ)
    (h : ∀ o ∈ l,
      Vector3d.norm Real.sqrt (o.position - a.state.position)
        < a.param.q * (a.param.radius + o.radius) →
      Vector3d.norm Real.sqrt (o.position - a.state.position) ≠ 0) :
    l.foldl (fun u o => obstacle_step_checked Real.sqrt a u o) (some u)
      = some (l.foldl (fun u o => obstacle_step Real.sqrt a u o) u) := by
  induction l generalizing u with
  | nil => rfl
  | cons o os ih =>
    rw [List.foldl_cons, List.foldl_cons,
      obstacle_step_checked_some a u o (h o (List.mem_cons_self o os)),
      ih _ (fun x hx => h x (List.mem_cons_of_mem o hx))]

theorem repulsion_checked_agrees {K : Type} [LinearOrderedField K] (sqrt : K → K)
    (a : ApfAgent K) (Q : K) (p r : Vector3d K) (h : repulsion_checked sqrt a Q p = some r) :
    r = repulsion sqrt a Q p := by
  by_cases hQ : Q = 0
  · simp [repulsion_checked, div_checked, hQ] at h
  · by_cases hd : Vector3d.norm sqrt (p - a.state.position) = 0
    · simp [repulsion_checked, div_checked, hd] at h
    · rw [repulsion_checked_of_ne sqrt a Q p hQ hd] at h
      exact (Option.some.inj h).symm

theorem peer_step_checked_agrees {K : Type} [LinearOrderedField K] (sqrt : K → K)
    (a : ApfAgent K) (uo : Option (Vector3d K)) (u : Vector3d K) (id : Nat) (p : Vector3d K)
    (h : ∀ v, uo = some v → v = u) :
    ∀ v, peer_step_checked sqrt a uo id p = some v → v = peer_step sqrt a u id p := by
  intro v hv
  unfold peer_step_checked at hv
  unfold peer_step
  by_cases hid : a.agent_id = id
  · rw [if_pos hid] at hv ⊢
    exact h v hv
  · rw [if_neg hid] at hv ⊢
    simp only at hv ⊢
    by_cases hlt : Vector3d.norm sqrt (p - a.state.position) < a.param.q * (2 * a.param.radius)
    · rw [if_pos hlt] at hv ⊢
      cases uo with
      | none => exact Option.noConfusion hv
      | some w =>
        rw [Option.some_bind, Option.map_eq_some'] at hv
        obtain ⟨r, hr, rfl⟩ := hv
        rw [h w rfl, repulsion_checked_agrees sqrt a _ p r hr]
    · rw [if_neg hlt] at hv ⊢
      exact h v hv

theorem obstacle_step_checked_agrees {K : Type} [LinearOrderedField K] (sqrt : K → K)
    (a : ApfAgent K) (uo : Option (Vector3d K)) (u : Vector3d K) (o : Obstacle K)
    (h : ∀ v, uo = some v → v = u) :
    ∀ v, obstacle_step_checked sqrt a uo o = some v → v = obstacle_step sqrt a u o := by
  intro v hv
  unfold obstacle_step_checked at hv
  unfold obstacle_step
  simp only at hv ⊢
  by_cases hlt : Vector3d.norm sqrt (o.position - a.state.position)
      < a.param.q * (a.param.radius + o.radius)
  · rw [if_pos hlt] at hv ⊢
    exact repulsion_checked_agrees sqrt a _ _ v hv
  · rw [if_neg hlt] at hv ⊢
    exact h v hv

theorem u_obs_checked_agrees {K : Type} [LinearOrderedField K] (sqrt : K → K)
    (a : ApfAgent K) : ∀ v, u_obs_checked sqrt a = some v → v = u_obs sqrt a := by
  have peers : ∀ (l : List (Nat × Vector3d K)) (uo : Option (Vector3d K)) (u : Vector3d K),
      (∀ v, uo = some v → v = u) →
      ∀ v, l.foldl (fun u ip => peer_step_checked sqrt a u ip.1 ip.2) uo = some v →
        v = l.foldl (fun u ip => peer_step sqrt a u ip.1 ip.2) u := by
    intro l
    induction l with
    | nil => intro uo u h v hv; exact h v hv
    | cons ip ips ih =>
      intro uo u h v hv
      exact ih _ _ (peer_step_checked_agrees sqrt a uo u ip.1 ip.2 h) v hv
  have obstacles : ∀ (l : List (Obstacle K)) (uo : Option (Vector3d K)) (u : Vector3d K),
      (∀ v, uo = some v → v = u) →
      ∀ v, l.foldl (fun u o => obstacle_step_checked sqrt a u o) uo = some v →
        v = l.foldl (fun u o => obstacle_step sqrt a u o) u := by
    intro l
    induction l with
    | nil => intro uo u h v hv; exact h v hv
    | cons o os ih =>
      intro uo u h v hv
      exact ih _ _ (obstacle_step_checked_agrees sqrt a uo u o h) v hv
  intro v hv
  exact obstacles a.obstacles _ _
    (peers a.agent_positions.enum (some 0) 0 (fun w hw => (Option.some.inj hw).symm)) v hv

theorem u_goal_checked_agrees {K : Type} [LinearOrderedField K] (sqrt : K → K)
    (a : ApfAgent K) : ∀ v, u_goal_checked sqrt a = some v → v = u_goal sqrt a := by
  intro v hv
  unfold u_goal_checked at hv
  unfold u_goal
  by_cases h : Vector3d.norm sqrt (a.goal - a.state.position) < 1
  · rw [if_pos h] at hv ⊢
    exact (Option.some.inj hv).symm
  · rw [if_neg h] at hv ⊢
    by_cases h0 : Vector3d.norm sqrt (a.goal - a.state.position) = 0
    · simp [Vector3d.divs_checked, h0] at hv
    · rw [divs_checked_of_ne _ _ h0] at hv
      exact (Option.some.inj hv).symm

theorem apf_controller_checked_agrees {K : Type} [LinearOrderedField K] (sqrt : K → K)
    (a : ApfAgent K) :
    ∀ u, apf_controller_checked sqrt a = some u → u = apf_controller sqrt a := by
  intro u hu
  unfold apf_controller_checked at hu
  rw [Option.map_eq_some'] at hu
  obtain ⟨n, hn, rfl⟩ := hu
  unfold net_force_checked at hn
  rw [Option.bind_eq_some] at hn
  obtain ⟨g, hg, hn⟩ := hn
  rw [Option.map_eq_some'] at hn
  obtain ⟨r, hr, rfl⟩ := hn
  rw [u_goal_checked_agrees sqrt a g hg, u_obs_checked_agrees sqrt a r hr]
  rfl

/-- C1, contradicted: with the parameters of `param.h` (`max_acc = 6`) and a peer stored at
the position of the agent, the division `1 / distance` of line 179 has divisor zero and
`apf_controller` returns no vector with coordinates in `[-max_acc, max_acc]`. -/
theorem coincident_peer_no_bounded_command :
    0 ≤ (coincident_agent ℝ).param.max_acc ∧
    apf_controller_checked Real.sqrt (coincident_agent ℝ) = none ∧
    ¬ ∃ u, apf_controller_checked Real.sqrt (coincident_agent ℝ) = some u ∧
      within_bound (coincident_agent ℝ).param.max_acc u := by
  have h0 : Vector3d.norm Real.sqrt ((⟨0, 0, 0⟩ : Vector3d ℝ) - ⟨0, 0, 0⟩) = 0 := by
    rw [Vector3d.mk_sub_mk]
    norm_num [Vector3d.norm_axis_x]
  have hnone : apf_controller_checked Real.sqrt (coincident_agent ℝ) = none := by
    simp only [apf_controller_checked, net_force_checked, u_goal_checked, u_obs_checked,
      peer_step_checked, repulsion_checked, div_checked, coincident_agent, Param.default,
      List.enum_cons, List.enumFrom_cons, List.enumFrom_nil, List.foldl_cons, List.foldl_nil,
      h0]
    norm_num
  refine ⟨by norm_num [coincident_agent, Param.default], hnone, ?_⟩
  rintro ⟨u, hu, -⟩
  rw [hnone] at hu
  exact Option.noConfusion hu

/-- C1, amended: with `max_acc ≥ 0`, whenever `apf_controller` returns a vector, that is
whenever no division by zero enters the net force, its three coordinates lie in
`[-max_acc, max_acc]`; and it returns one, the clamped net force, for
every state, goal, peer positions and obstacles in which no peer `j ≠ agent_id` closer than
`Q = q*2*radius` and no obstacle closer than `Q = q*(radius + obstacle_radius)` is at
distance zero. -/
theorem apf_controller_checked_bounded (a : ApfAgent ℝ) (h : 0 ≤ a.param.max_acc) :
    (∀ u, apf_controller_checked Real.sqrt a = some u →
      u = apf_controller Real.sqrt a ∧ within_bound a.param.max_acc u) ∧
    ((∀ ip ∈ a.agent_positions.enum, a.agent_id ≠ ip.1 →
        Vector3d.norm Real.sqrt (ip.2 - a.state.position)
          < a.param.q * (2 * a.param.radius) →
        Vector3d.norm Real.sqrt (ip.2 - a.state.position) ≠ 0) →
      (∀ o ∈ a.obstacles,
        Vector3d.norm Real.sqrt (o.position - a.state.position)
          < a.param.q * (a.param.radius + o.radius) →
        Vector3d.norm Real.sqrt (o.position - a.state.position) ≠ 0) →
      apf_controller_checked Real.sqrt a = some (apf_controller Real.sqrt a) ∧
        within_bound a.param.max_acc (apf_controller Real.sqrt a)) := by
  constructor
  · intro u hu
    rw [apf_controller_checked_agrees Real.sqrt a u hu]
    exact ⟨rfl, clamp_within_bound _ _ h⟩
  · intro hp ho
    refine ⟨?_, clamp_within_bound _ _ h⟩
    unfold apf_controller_checked net_force_checked u_obs_checked
    rw [u_goal_checked_eq, Option.some_bind,
      peer_fold_checked a a.agent_positions.enum 0 hp,
      obstacle_fold_checked a a.obstacles _ ho]
    rfl

/-- Witness of C1 as amended: at `crowded_agent` the two sources in range are at distance
`0.5`, and the net force, far outside the bound, is clamped. -/
theorem apf_controller_checked_bounded_witness :
    0 ≤ (crowded_agent ℝ).param.max_acc ∧
    apf_controller_checked Real.sqrt (crowded_agent ℝ)
      = some (apf_controller Real.sqrt (crowded_agent ℝ)) ∧
    within_bound (crowded_agent ℝ).param.max_acc (apf_controller Real.sqrt (crowded_agent ℝ)) := by
  have hx : Vector3d.norm Real.sqrt ((⟨0.5, 0, 0⟩ : Vector3d ℝ) - ⟨0, 0, 0⟩) ≠ 0 := by
    rw [Vector3d.mk_sub_mk]
    norm_num [Vector3d.norm_axis_x]
  have hy : Vector3d.norm Real.sqrt ((⟨0, 0.5, 0⟩ : Vector3d ℝ) - ⟨0, 0, 0⟩) ≠ 0 := by
    rw [Vector3d.mk_sub_mk]
    norm_num [Vector3d.norm_axis_y]
  have hm : 0 ≤ (crowded_agent ℝ).param.max_acc := by
    norm_num [crowded_agent, Param.default]
  refine ⟨hm, (apf_controller_checked_bounded (crowded_agent ℝ) hm).2 ?_ ?_⟩
  · intro ip hip hid _
    simp only [crowded_agent, List.enum_cons, List.enumFrom_cons, List.enumFrom_nil,
      List.mem_cons, List.mem_nil_iff, or_false] at hip hid
    rcases hip with rfl | rfl
    · exact absurd rfl hid
    · exact hx
  · intro o ho _
    simp only [crowded_agent, List.mem_cons, List.mem_nil_iff, or_false] at ho
    subst ho
    exact hy

/-! ## Attraction -/

/-- C4: when the goal is at distance at least 1 and `zeta ≥ 0`, the attraction term has norm
exactly `zeta` and is `zeta` times the unit vector from the position to the goal. -/
theorem u_goal_far (a : ApfAgent ℝ) (hz : 0 ≤ a.param.zeta)
    (h : 1 ≤ Vector3d.norm Real.sqrt (a.goal - a.state.position)) :
    Vector3d.norm Real.sqrt (u_goal Real.sqrt a) = a.param.zeta ∧
    Vector3d.norm Real.sqrt
      ((a.goal - a.state.position) / Vector3d.norm Real.sqrt (a.goal - a.state.position)) = 1 ∧
    u_goal Real.sqrt a =
      a.param.zeta *
        ((a.goal - a.state.position) / Vector3d.norm Real.sqrt (a.goal - a.state.position)) := by
  have hr : 0 < Vector3d.norm Real.sqrt (a.goal - a.state.position) := by linarith
  have hu : u_goal Real.sqrt a =
      (a.param.zeta * (a.goal - a.state.position)) /
        Vector3d.norm Real.sqrt (a.goal - a.state.position) := by
    unfold u_goal
    rw [if_neg (not_lt.mpr h)]
  refine ⟨?_, ?_, ?_⟩
  · rw [hu, Vector3d.norm_divs, Vector3d.norm_smul, abs_of_nonneg hz, abs_of_pos hr]
    field_simp
  · rw [Vector3d.norm_divs, abs_of_pos hr]
    exact div_self (ne_of_gt hr)
  · rw [hu]
    ext <;> simp [mul_div_assoc]

theorem lone_agent_goal_dist (c : ℝ) :
    Vector3d.norm Real.sqrt ((lone_agent ℝ ⟨0, 0, 0⟩ ⟨c, 0, 0⟩).goal
      - (lone_agent ℝ ⟨0, 0, 0⟩ ⟨c, 0, 0⟩).state.position) = |c| := by
  have e : (lone_agent ℝ ⟨0, 0, 0⟩ ⟨c, 0, 0⟩).goal
      - (lone_agent ℝ ⟨0, 0, 0⟩ ⟨c, 0, 0⟩).state.position = ⟨c, 0, 0⟩ := by
    ext <;> simp [lone_agent]
  rw [e, Vector3d.norm_axis_x]

/-- Witness of C4: an agent at the origin with its goal at `(5, 0, 0)`. -/
theorem u_goal_far_witness :
    0 ≤ (lone_agent ℝ ⟨0, 0, 0⟩ ⟨5, 0, 0⟩).param.zeta ∧
    Vector3d.norm Real.sqrt (u_goal Real.sqrt (lone_agent ℝ ⟨0, 0, 0⟩ ⟨5, 0, 0⟩)) =
      (lone_agent ℝ ⟨0, 0, 0⟩ ⟨5, 0, 0⟩).param.zeta :=
  ⟨by norm_num [lone_agent, Param.default],
    (u_goal_far (lone_agent ℝ ⟨0, 0, 0⟩ ⟨5, 0, 0⟩)
      (by norm_num [lone_agent, Param.default])
      (by rw [lone_agent_goal_dist]; norm_num)).1⟩

/-- C5: when the goal is at distance below 1, the attraction term is `zeta * (goal - position)`,
its norm is `|zeta|` times the distance to the goal, and it is zero at the goal. -/
theorem u_goal_near (a : ApfAgent ℝ)
    (h : Vector3d.norm Real.sqrt (a.goal - a.state.position) < 1) :
    u_goal Real.sqrt a = a.param.zeta * (a.goal - a.state.position) ∧
    Vector3d.norm Real.sqrt (u_goal Real.sqrt a) =
      |a.param.zeta| * Vector3d.norm Real.sqrt (a.goal - a.state.position) ∧
    (a.state.position = a.goal → u_goal Real.sqrt a = 0) := by
  have hu : u_goal Real.sqrt a = a.param.zeta * (a.goal - a.state.position) := by
    unfold u_goal
    rw [if_pos h]
  refine ⟨hu, ?_, ?_⟩
  · rw [hu, Vector3d.norm_smul]
  · intro hp
    rw [hu, hp]
    ext <;> simp

/-- Witness of C5: an agent at the origin with its goal at `(0.5, 0, 0)`. -/
theorem u_goal_near_witness :
    Vector3d.norm Real.sqrt ((lone_agent ℝ ⟨0, 0, 0⟩ ⟨0.5, 0, 0⟩).goal
      - (lone_agent ℝ ⟨0, 0, 0⟩ ⟨0.5, 0, 0⟩).state.position) < 1 ∧
    u_goal Real.sqrt (lone_agent ℝ ⟨0, 0, 0⟩ ⟨0.5, 0, 0⟩) =
      (lone_agent ℝ ⟨0, 0, 0⟩ ⟨0.5, 0, 0⟩).param.zeta *
        ((lone_agent ℝ ⟨0, 0, 0⟩ ⟨0.5, 0, 0⟩).goal
          - (lone_agent ℝ ⟨0, 0, 0⟩ ⟨0.5, 0, 0⟩).state.position) :=
  ⟨by rw [lone_agent_goal_dist]; norm_num [abs_of_nonneg],
    (u_goal_near (lone_agent ℝ ⟨0, 0, 0⟩ ⟨0.5, 0, 0⟩)
      (by rw [lone_agent_goal_dist]; norm_num [abs_of_nonneg])).1⟩

/-! ## Integration -/

/-- C7: one step of `update_state` with command `u = apf_controller()` gives
`position + velocity*dt + 0.5*u*dt^2` with the velocity from before the step and
`velocity + u*dt`; lines 128-129 do so for every command `u`, and for `u = 0` they give
`position + velocity*dt` and an unchanged velocity. -/
theorem update_state_spec (a : ApfAgent ℝ) :
    (∀ u : Vector3d ℝ,
      (integrate u a).state.position =
        a.state.position + a.state.velocity * a.param.dt + (0.5 * a.param.dt ^ 2) * u ∧
      (integrate u a).state.velocity = a.state.velocity + u * a.param.dt) ∧
    ((update_state Real.sqrt a).state.position =
        a.state.position + a.state.velocity * a.param.dt
          + (0.5 * a.param.dt ^ 2) * apf_controller Real.sqrt a ∧
      (update_state Real.sqrt a).state.velocity =
        a.state.velocity + apf_controller Real.sqrt a * a.param.dt) ∧
    ((integrate 0 a).state.position = a.state.position + a.state.velocity * a.param.dt ∧
      (integrate 0 a).state.velocity = a.state.velocity) ∧
    (apf_controller Real.sqrt a = 0 →
      (update_state Real.sqrt a).state.position
          = a.state.position + a.state.velocity * a.param.dt ∧
        (update_state Real.sqrt a).state.velocity = a.state.velocity) := by
  have key : ∀ u : Vector3d ℝ,
      (integrate u a).state.position =
        a.state.position + a.state.velocity * a.param.dt + (0.5 * a.param.dt ^ 2) * u ∧
      (integrate u a).state.velocity = a.state.velocity + u * a.param.dt := by
    intro u
    constructor
    · ext <;> simp [integrate] <;> ring
    · rfl
  have zero : (integrate 0 a).state.position
        = a.state.position + a.state.velocity * a.param.dt ∧
      (integrate 0 a).state.velocity = a.state.velocity := by
    constructor
    · ext <;> simp [integrate]
    · ext <;> simp [integrate]
  refine ⟨key, key _, zero, ?_⟩
  intro h0
  unfold update_state
  rw [h0]
  exact zero

/-- Witness of C7: an agent alone and at rest at its goal gets the zero command and stays. -/
theorem update_state_spec_witness :
    apf_controller Real.sqrt (lone_agent ℝ ⟨0, 0, 0⟩ ⟨0, 0, 0⟩) = 0 ∧
    ((update_state Real.sqrt (lone_agent ℝ ⟨0, 0, 0⟩ ⟨0, 0, 0⟩)).state.position
        = (lone_agent ℝ ⟨0, 0, 0⟩ ⟨0, 0, 0⟩).state.position
          + (lone_agent ℝ ⟨0, 0, 0⟩ ⟨0, 0, 0⟩).state.velocity
            * (lone_agent ℝ ⟨0, 0, 0⟩ ⟨0, 0, 0⟩).param.dt ∧
      (update_state Real.sqrt (lone_agent ℝ ⟨0, 0, 0⟩ ⟨0, 0, 0⟩)).state.velocity
        = (lone_agent ℝ ⟨0, 0, 0⟩ ⟨0, 0, 0⟩).state.velocity) := by
  have h0 : apf_controller Real.sqrt (lone_agent ℝ ⟨0, 0, 0⟩ ⟨0, 0, 0⟩) = 0 := by
    norm_num [apf_controller, net_force, u_goal, u_obs, peer_loop, obstacle_loop, peer_step,
      u_damp, clamp, clamp_axis, lone_agent, Param.default, Vector3d.norm,
      Vector3d.squaredNorm, Vector3d.mk_sub_mk, Vector3d.mk_add_mk, Vector3d.smul_mk,
      Vector3d.zero_def]
    rfl
  exact ⟨h0, (update_state_spec (lone_agent ℝ ⟨0, 0, 0⟩ ⟨0, 0, 0⟩)).2.2.2 h0⟩

/-! ## The first tick of a lone agent -/

theorem u_obs_alone {K : Type} [LinearOrderedField K] (sqrt : K → K) (a : ApfAgent K)
    (hn : a.number_of_agents = 1) (hid : a.agent_id = 0) (ho : a.number_of_obstacles = 0) :
    u_obs sqrt a = 0 := by
  obtain ⟨p, hp⟩ := List.length_eq_one.mp hn
  have hobs : a.obstacles = [] := List.length_eq_zero.mp ho
  simp [u_obs, peer_loop, obstacle_loop, hp, hobs, peer_step, hid]

/-- C9: agent at rest at the origin, goal `(5, 0, 0)`, no other agent, no obstacle,
`zeta = 1`, `damp = 1`, `dt = 0.02`, `max_acc ≥ 1`: the command is `(1, 0, 0)` and one
`update_state` step leaves position `(0.0002, 0, 0)` and velocity `(0.02, 0, 0)`. -/
theorem first_tick (a : ApfAgent ℝ)
    (hpos : a.state.position = ⟨0, 0, 0⟩) (hvel : a.state.velocity = ⟨0, 0, 0⟩)
    (hgoal : a.goal = ⟨5, 0, 0⟩)
    (hn : a.number_of_agents = 1) (hid : a.agent_id = 0) (ho : a.number_of_obstacles = 0)
    (hzeta : a.param.zeta = 1) (_hdamp : a.param.damp = 1) (hdt : a.param.dt = 0.02)
    (hmax : 1 ≤ a.param.max_acc) :
    apf_controller Real.sqrt a = ⟨1, 0, 0⟩ ∧
    (update_state Real.sqrt a).state.position = ⟨0.0002, 0, 0⟩ ∧
    (update_state Real.sqrt a).state.velocity = ⟨0.02, 0, 0⟩ := by
  have hd : a.goal - a.state.position = ⟨5, 0, 0⟩ := by
    rw [hgoal, hpos]; ext <;> simp
  have hnorm : Vector3d.norm Real.sqrt (a.goal - a.state.position) = 5 := by
    rw [hd, Vector3d.norm_axis_x]; norm_num
  have hg : u_goal Real.sqrt a = ⟨1, 0, 0⟩ := by
    unfold u_goal
    rw [hnorm, if_neg (by norm_num), hd, hzeta]
    ext <;> simp
  have hnet : net_force Real.sqrt a = ⟨1, 0, 0⟩ := by
    unfold net_force u_damp
    rw [hg, u_obs_alone Real.sqrt a hn hid ho, hvel]
    ext <;> simp
  have hu : apf_controller Real.sqrt a = ⟨1, 0, 0⟩ := by
    unfold apf_controller clamp
    rw [hnet]
    simp only
    rw [clamp_axis_id _ _ hmax (by linarith), clamp_axis_id _ _ (by linarith) (by linarith)]
  refine ⟨hu, ?_, ?_⟩
  · unfold update_state integrate
    rw [hu, hpos, hvel, hdt]
    ext <;> norm_num
  · unfold update_state integrate
    rw [hu, hvel, hdt]
    ext <;> norm_num

/-- Witness of C9: the scenario with the parameters of `param.h` (`max_acc = 6`). -/
theorem first_tick_witness :
    1 ≤ (lone_agent ℝ ⟨0, 0, 0⟩ ⟨5, 0, 0⟩).param.max_acc ∧
    apf_controller Real.sqrt (lone_agent ℝ ⟨0, 0, 0⟩ ⟨5, 0, 0⟩) = ⟨1, 0, 0⟩ ∧
    (update_state Real.sqrt (lone_agent ℝ ⟨0, 0, 0⟩ ⟨5, 0, 0⟩)).state.position
      = ⟨0.0002, 0, 0⟩ ∧
    (update_state Real.sqrt (lone_agent ℝ ⟨0, 0, 0⟩ ⟨5, 0, 0⟩)).state.velocity
      = ⟨0.02, 0, 0⟩ :=
  ⟨by norm_num [lone_agent, Param.default],
    first_tick (lone_agent ℝ ⟨0, 0, 0⟩ ⟨5, 0, 0⟩) rfl rfl rfl rfl rfl rfl
      (by norm_num [lone_agent, Param.default]) (by norm_num [lone_agent, Param.default])
      (by norm_num [lone_agent, Param.default]) (by norm_num [lone_agent, Param.default])⟩

/-! ## Collision diagnostic -/

theorem reports_obstacle_iff {K : Type} [LinearOrderedField K] (sqrt : K → K)
    (a : ApfAgent K) (k : Nat) (hk : k < a.obstacles.length) :
    reports_obstacle sqrt a k ↔
      Vector3d.norm sqrt (a.obstacles[k].position - a.state.position)
        < a.param.radius + a.obstacles[k].radius := by
  unfold reports_obstacle collision_check
  constructor
  · rintro ⟨d, hd⟩
    rw [List.mem_append] at hd
    rcases hd with hd | hd
    · split_ifs at hd <;> simp at hd
    · rw [List.mem_filterMap] at hd
      obtain ⟨⟨i, o⟩, hio, hf⟩ := hd
      have hget : a.obstacles[i]? = some o := List.mk_mem_enum_iff_getElem?.mp hio
      simp only at hf
      split_ifs at hf with hlt
      · simp only [Option.some.injEq, CollisionMessage.obstacle.injEq] at hf
        obtain ⟨hik, -⟩ := hf
        subst hik
        rw [List.getElem?_eq_getElem hk, Option.some.injEq] at hget
        rw [hget]
        exact hlt
  · intro h
    refine ⟨Vector3d.norm sqrt (a.obstacles[k].position - a.state.position),
      List.mem_append_right _ (List.mem_filterMap.mpr ⟨(k, a.obstacles[k]), ?_, ?_⟩)⟩
    · exact List.mk_mem_enum_iff_getElem?.mpr (List.getElem?_eq_getElem hk)
    · simp only
      rw [if_pos h]

theorem agent_near_obstacle_dist (r : ℝ) :
    Vector3d.norm Real.sqrt ((⟨1, 0, 0⟩ : Vector3d ℝ) - (agent_near_obstacle ℝ r).state.position)
      = 1 := by
  simp only [agent_near_obstacle, Vector3d.mk_sub_mk]
  norm_num [Vector3d.norm_axis_x]

/-- C8, contradicted: with the parameters of `param.h` and an obstacle of radius `0.85` whose
centre is at distance `1 = 0.15 + 0.85` (surface contact), `collision_check` reports no
collision with that obstacle. -/
theorem collision_check_contact_silent :
    (agent_near_obstacle ℝ 0.85).obstacles = [⟨⟨1, 0, 0⟩, 0.85⟩] ∧
    Vector3d.norm Real.sqrt
        ((⟨1, 0, 0⟩ : Vector3d ℝ) - (agent_near_obstacle ℝ 0.85).state.position)
      = (agent_near_obstacle ℝ 0.85).param.radius + 0.85 ∧
    ¬ reports_obstacle Real.sqrt (agent_near_obstacle ℝ 0.85) 0 := by
  refine ⟨rfl, ?_, ?_⟩
  · rw [agent_near_obstacle_dist]
    norm_num [agent_near_obstacle, Param.default]
  · rw [reports_obstacle_iff Real.sqrt (agent_near_obstacle ℝ 0.85) 0
      (by simp [agent_near_obstacle])]
    have h := agent_near_obstacle_dist 0.85
    simp only [agent_near_obstacle, List.getElem_cons_zero, Param.default] at h ⊢
    rw [h]
    norm_num

/-- C8, amended: `collision_check` reports obstacle `k` exactly when the distance to its
centre is strictly below `radius + obstacle_radius[k]`; it reports nothing for `k` at
distance exactly `radius + obstacle_radius[k]`, nor at that distance plus any `eps > 0`. -/
theorem collision_check_obstacle (a : ApfAgent ℝ) (k : Nat) (hk : k < a.obstacles.length) :
    (reports_obstacle Real.sqrt a k ↔
      Vector3d.norm Real.sqrt (a.obstacles[k].position - a.state.position)
        < a.param.radius + a.obstacles[k].radius) ∧
    (Vector3d.norm Real.sqrt (a.obstacles[k].position - a.state.position)
        = a.param.radius + a.obstacles[k].radius → ¬ reports_obstacle Real.sqrt a k) ∧
    (∀ eps : ℝ, 0 < eps →
      Vector3d.norm Real.sqrt (a.obstacles[k].position - a.state.position)
        = a.param.radius + a.obstacles[k].radius + eps → ¬ reports_obstacle Real.sqrt a k) := by
  have key := reports_obstacle_iff Real.sqrt a k hk
  refine ⟨key, ?_, ?_⟩
  · intro h
    rw [key, h]
    exact lt_irrefl _
  · intro eps heps h
    rw [key, h]
    linarith

/-- Witness of C8 as amended: an obstacle of radius `0.9` at distance `1 < 0.15 + 0.9` is
reported. -/
theorem collision_check_obstacle_witness :
    0 < (agent_near_obstacle ℝ 0.9).obstacles.length ∧
    reports_obstacle Real.sqrt (agent_near_obstacle ℝ 0.9) 0 :=
  ⟨by simp [agent_near_obstacle],
    (collision_check_obstacle (agent_near_obstacle ℝ 0.9) 0 (by simp [agent_near_obstacle])).1.mpr
      (by
        have h := agent_near_obstacle_dist 0.9
        simp only [agent_near_obstacle, List.getElem_cons_zero, Param.default] at h ⊢
        rw [h]
        norm_num)⟩

/-! ## The repulsion loops -/

section Loops

variable {K : Type} [LinearOrderedField K]

theorem repulsion_eq_contribution (sqrt : K → K) (a : ApfAgent K) (Q : K) (p : Vector3d K) :
    repulsion sqrt a Q p = contribution sqrt a Q p := by
  unfold repulsion contribution
  ext <;> simp <;> ring

theorem peer_step_in_range (sqrt : K → K) (a : ApfAgent K) (u : Vector3d K) (id : Nat)
    (p : Vector3d K) (h : peer_in_range sqrt a (id, p)) :
    peer_step sqrt a u id p = u + contribution sqrt a (a.param.q * 2 * a.param.radius) p := by
  obtain ⟨h1, h2⟩ := h
  unfold peer_step
  rw [if_neg (fun e => h1 e.symm)]
  simp only
  rw [if_pos (by rw [← mul_assoc]; exact h2), repulsion_eq_contribution, mul_assoc]

theorem peer_step_out_of_range (sqrt : K → K) (a : ApfAgent K) (u : Vector3d K) (id : Nat)
    (p : Vector3d K) (h : ¬ peer_in_range sqrt a (id, p)) :
    peer_step sqrt a u id p = u := by
  unfold peer_step
  by_cases hid : a.agent_id = id
  · rw [if_pos hid]
  · rw [if_neg hid]
    simp only
    rw [if_neg]
    intro hlt
    exact h ⟨fun e => hid e.symm, by rw [mul_assoc]; exact hlt⟩

theorem peer_fold (sqrt : K → K) (a : ApfAgent K) (l : List (Vector3d K)) (n : Nat)
    (u : Vector3d K) :
    (l.enumFrom n).foldl (fun u ip => peer_step sqrt a u ip.1 ip.2) u =
      u + (((l.enumFrom n).filter fun ip => decide (peer_in_range sqrt a ip)).map
        fun ip => contribution sqrt a (a.param.q * 2 * a.param.radius) ip.2).sum := by
  induction l generalizing n u with
  | nil => simp [Vector3d.add_zero3]
  | cons p ps ih =>
    rw [List.enumFrom_cons, List.foldl_cons, ih, List.filter_cons]
    by_cases h : peer_in_range sqrt a (n, p)
    · rw [if_pos (by simpa using h), List.map_cons, List.sum_cons,
        peer_step_in_range sqrt a u n p h, Vector3d.add_assoc3]
    · rw [if_neg (by simpa using h), peer_step_out_of_range sqrt a u n p h]

theorem peer_loop_eq (sqrt : K → K) (a : ApfAgent K) (u : Vector3d K) :
    peer_loop sqrt a u = u + u_peers sqrt a :=
  peer_fold sqrt a a.agent_positions 0 u

theorem obstacle_step_in_range (sqrt : K → K) (a : ApfAgent K) (u : Vector3d K)
    (o : Obstacle K) (h : obstacle_in_range sqrt a o) :
    obstacle_step sqrt a u o
      = contribution sqrt a (a.param.q * (a.param.radius + o.radius)) o.position := by
  unfold obstacle_in_range at h
  unfold obstacle_step
  simp only
  rw [if_pos h, repulsion_eq_contribution]

theorem obstacle_step_out_of_range (sqrt : K → K) (a : ApfAgent K) (u : Vector3d K)
    (o : Obstacle K) (h : ¬ obstacle_in_range sqrt a o) :
    obstacle_step sqrt a u o = u := by
  unfold obstacle_in_range at h
  unfold obstacle_step
  simp only
  rw [if_neg h]

theorem obstacle_fold (sqrt : K → K) (a : ApfAgent K) (l : List (Obstacle K))
    (u : Vector3d K) :
    l.foldl (fun u o => obstacle_step sqrt a u o) u =
      match (l.filter fun o => decide (obstacle_in_range sqrt a o)).getLast? with
      | some o => contribution sqrt a (a.param.q * (a.param.radius + o.radius)) o.position
      | none => u := by
  induction l generalizing u with
  | nil => simp
  | cons o os ih =>
    rw [List.foldl_cons, ih, List.filter_cons]
    by_cases h : obstacle_in_range sqrt a o
    · rw [if_pos (by simpa using h), List.getLast?_cons, obstacle_step_in_range sqrt a u o h]
      cases (os.filter fun o => decide (obstacle_in_range sqrt a o)).getLast? <;> rfl
    · rw [if_neg (by simpa using h), obstacle_step_out_of_range sqrt a u o h]

theorem u_obs_eq (sqrt : K → K) (a : ApfAgent K) :
    u_obs sqrt a = u_obs_last_obstacle sqrt a := by
  unfold u_obs u_obs_last_obstacle obstacle_loop
  rw [obstacle_fold, peer_loop_eq, Vector3d.zero_add3]

end Loops

/-- C10: the repulsion term that `apf_controller` adds to the net force is the contribution
of the last in-range obstacle in list order when some obstacle is in range (earlier in-range
obstacles and all peers are discarded), and otherwise the sum of the contributions of the
in-range peers; the net force is the attraction plus that term plus the damping. -/
theorem u_obs_last_obstacle_wins (a : ApfAgent ℝ) :
    u_obs Real.sqrt a = u_obs_last_obstacle Real.sqrt a ∧
    net_force Real.sqrt a = u_goal Real.sqrt a + u_obs_last_obstacle Real.sqrt a + u_damp a := by
  refine ⟨u_obs_eq Real.sqrt a, ?_⟩
  unfold net_force
  rw [u_obs_eq]

/-! ## Peers and obstacles together -/

/-- C2 at `crowded_agent` (one peer and one obstacle, both in range): the in-range peer
contributes `(-640/9, 0, 0)` to the sum over the peers and the obstacle contributes
`(0, -640/9, 0)`, so the sum of attraction, peers, obstacle and damping is
`(-640/9, -640/9, 0)`; yet the net force of `apf_controller` is `(0, -640/9, 0)`, the
contribution of the obstacle alone, and the command is `(0, -6, 0)`. -/
theorem crowded_agent_net_force :
    u_peers Real.sqrt (crowded_agent ℝ) = ⟨-640 / 9, 0, 0⟩ ∧
    u_goal Real.sqrt (crowded_agent ℝ) + u_peers Real.sqrt (crowded_agent ℝ)
        + contribution Real.sqrt (crowded_agent ℝ)
            ((crowded_agent ℝ).param.q * ((crowded_agent ℝ).param.radius + 0.15)) ⟨0, 0.5, 0⟩
        + u_damp (crowded_agent ℝ)
      = ⟨-640 / 9, -640 / 9, 0⟩ ∧
    net_force Real.sqrt (crowded_agent ℝ) = ⟨0, -640 / 9, 0⟩ ∧
    apf_controller Real.sqrt (crowded_agent ℝ) = ⟨0, -6, 0⟩ := by
  have h0 : Vector3d.norm Real.sqrt ((⟨0, 0, 0⟩ : Vector3d ℝ) - ⟨0, 0, 0⟩) = 0 := by
    rw [Vector3d.mk_sub_mk]
    norm_num [Vector3d.norm_axis_x]
  have hp : u_peers Real.sqrt (crowded_agent ℝ) = ⟨-640 / 9, 0, 0⟩ := by
    simp only [u_peers, crowded_agent, List.enum_cons, List.enumFrom_cons, List.enumFrom_nil,
      peer_in_range, contribution, Param.default, List.filter_cons, List.filter_nil, h0]
    norm_num
    ext <;> norm_num [Vector3d.mk_sub_mk, Vector3d.mk_divs, Vector3d.smul_mk,
      Vector3d.norm_axis_x, abs_of_nonneg]
  have hc : contribution Real.sqrt (crowded_agent ℝ)
      ((crowded_agent ℝ).param.q * ((crowded_agent ℝ).param.radius + 0.15)) ⟨0, 0.5, 0⟩
        = ⟨0, -640 / 9, 0⟩ := by
    simp only [crowded_agent, contribution, Param.default]
    ext <;> norm_num [Vector3d.mk_sub_mk, Vector3d.mk_divs, Vector3d.smul_mk,
      Vector3d.norm_axis_y, abs_of_nonneg]
  have hg : u_goal Real.sqrt (crowded_agent ℝ) = 0 := by
    simp only [u_goal, crowded_agent, h0]
    norm_num
    ext <;> simp
  have hdamp : u_damp (crowded_agent ℝ) = 0 := by
    simp only [u_damp, crowded_agent]
    ext <;> simp
  have hn : net_force Real.sqrt (crowded_agent ℝ) = ⟨0, -640 / 9, 0⟩ := by
    simp only [net_force, u_goal, u_obs, peer_loop, obstacle_loop, peer_step, obstacle_step,
      repulsion, u_damp, crowded_agent, Param.default, List.enum_cons, List.enumFrom_cons,
      List.enumFrom_nil, List.foldl_cons, List.foldl_nil, h0]
    norm_num [Vector3d.mk_sub_mk, Vector3d.mk_divs, Vector3d.smul_mk, Vector3d.mk_add_mk,
      Vector3d.zero_def, Vector3d.norm_axis_x, Vector3d.norm_axis_y, abs_of_nonneg]
  refine ⟨hp, ?_, hn, ?_⟩
  · rw [hg, hp, hc, hdamp]
    ext <;> simp
  · unfold apf_controller
    rw [hn]
    simp only [clamp, clamp_axis, crowded_agent, Param.default]
    norm_num

/-! ## Sources at or beyond the influence radius -/

section OutOfRange

variable {K : Type} [LinearOrderedField K]

theorem filter_enumFrom_set {α : Type} (P : Nat × α → Bool) (l : List α) (n j : Nat) (x : α)
    (hj : j < l.length) (h1 : P (n + j, l[j]) = false) (h2 : P (n + j, x) = false) :
    ((l.set j x).enumFrom n).filter P = (l.enumFrom n).filter P := by
  induction l generalizing n j with
  | nil => simp at hj
  | cons y ys ih =>
    cases j with
    | zero =>
      simp only [Nat.add_zero, List.getElem_cons_zero] at h1 h2
      simp [List.enumFrom_cons, List.filter_cons, h1, h2]
    | succ j =>
      have e : n + (j + 1) = n + 1 + j := by omega
      simp only [List.getElem_cons_succ, e] at h1 h2
      simp only [List.set_cons_succ, List.enumFrom_cons, List.filter_cons]
      rw [ih (n + 1) j (by simpa using hj) h1 h2]

theorem filter_set_of_not {α : Type} (P : α → Bool) (l : List α) (k : Nat) (x : α)
    (hk : k < l.length) (h1 : P l[k] = false) (h2 : P x = false) :
    (l.set k x).filter P = l.filter P := by
  induction l generalizing k with
  | nil => simp at hk
  | cons y ys ih =>
    cases k with
    | zero =>
      simp only [List.getElem_cons_zero] at h1
      simp [List.filter_cons, h1, h2]
    | succ k =>
      simp only [List.getElem_cons_succ] at h1
      simp only [List.set_cons_succ, List.filter_cons]
      rw [ih k (by simpa using hk) h1]

theorem filter_eraseIdx_of_not {α : Type} (P : α → Bool) (l : List α) (k : Nat)
    (hk : k < l.length) (h1 : P l[k] = false) :
    (l.eraseIdx k).filter P = l.filter P := by
  induction l generalizing k with
  | nil => simp at hk
  | cons y ys ih =>
    cases k with
    | zero =>
      simp only [List.getElem_cons_zero] at h1
      simp [List.filter_cons, h1]
    | succ k =>
      simp only [List.getElem_cons_succ] at h1
      simp only [List.eraseIdx_cons_succ, List.filter_cons]
      rw [ih k (by simpa using hk) h1]

theorem u_obs_move_peer (sqrt : K → K) (a : ApfAgent K) (j : Nat)
    (hj : j < a.agent_positions.length) (p : Vector3d K)
    (h1 : a.param.q * 2 * a.param.radius
      ≤ Vector3d.norm sqrt (a.agent_positions[j] - a.state.position))
    (h2 : a.param.q * 2 * a.param.radius ≤ Vector3d.norm sqrt (p - a.state.position)) :
    u_obs sqrt { a with agent_positions := a.agent_positions.set j p } = u_obs sqrt a := by
  rw [u_obs_eq, u_obs_eq]
  have hf := filter_enumFrom_set (fun ip => decide (peer_in_range sqrt a ip))
    a.agent_positions 0 j p hj
    (by simp only [peer_in_range, decide_eq_false_iff_not]
        exact fun h => absurd h.2 (not_lt.mpr h1))
    (by simp only [peer_in_range, decide_eq_false_iff_not]
        exact fun h => absurd h.2 (not_lt.mpr h2))
  have hp : u_peers sqrt { a with agent_positions := a.agent_positions.set j p }
      = u_peers sqrt a := by
    unfold u_peers
    exact congrArg (fun l => (List.map
      (fun ip : Nat × Vector3d K =>
        contribution sqrt a (a.param.q * 2 * a.param.radius) ip.2) l).sum) hf
  unfold u_obs_last_obstacle
  rw [hp]
  rfl

theorem u_obs_move_obstacle (sqrt : K → K) (a : ApfAgent K) (k : Nat)
    (hk : k < a.obstacles.length) (p : Vector3d K)
    (h1 : a.param.q * (a.param.radius + a.obstacles[k].radius)
      ≤ Vector3d.norm sqrt (a.obstacles[k].position - a.state.position))
    (h2 : a.param.q * (a.param.radius + a.obstacles[k].radius)
      ≤ Vector3d.norm sqrt (p - a.state.position)) :
    u_obs sqrt { a with obstacles := a.obstacles.set k ⟨p, a.obstacles[k].radius⟩ }
      = u_obs sqrt a := by
  rw [u_obs_eq, u_obs_eq]
  have hf := filter_set_of_not (fun o => decide (obstacle_in_range sqrt a o))
    a.obstacles k ⟨p, a.obstacles[k].radius⟩ hk
    (by simp only [obstacle_in_range, decide_eq_false_iff_not]
        exact not_lt.mpr h1)
    (by simp only [obstacle_in_range, decide_eq_false_iff_not]
        exact not_lt.mpr h2)
  unfold u_obs_last_obstacle
  exact congrArg (fun l : List (Obstacle K) =>
    match l.getLast? with
    | some o => contribution sqrt a (a.param.q * (a.param.radius + o.radius)) o.position
    | none => u_peers sqrt a) hf

theorem u_obs_erase_obstacle (sqrt : K → K) (a : ApfAgent K) (k : Nat)
    (hk : k < a.obstacles.length)
    (h1 : a.param.q * (a.param.radius + a.obstacles[k].radius)
      ≤ Vector3d.norm sqrt (a.obstacles[k].position - a.state.position)) :
    u_obs sqrt { a with obstacles := a.obstacles.eraseIdx k } = u_obs sqrt a := by
  rw [u_obs_eq, u_obs_eq]
  have hf := filter_eraseIdx_of_not (fun o => decide (obstacle_in_range sqrt a o))
    a.obstacles k hk
    (by simp only [obstacle_in_range, decide_eq_false_iff_not]
        exact not_lt.mpr h1)
  unfold u_obs_last_obstacle
  exact congrArg (fun l : List (Obstacle K) =>
    match l.getLast? with
    | some o => contribution sqrt a (a.param.q * (a.param.radius + o.radius)) o.position
    | none => u_peers sqrt a) hf

theorem foldl_filter_of_id {α β : Type} (f : β → α → β) (P : α → Bool) (l : List α)
    (h : ∀ x ∈ l, P x = false → ∀ u, f u x = u) (u : β) :
    (l.filter P).foldl f u = l.foldl f u := by
  induction l generalizing u with
  | nil => rfl
  | cons y ys ih =>
    have hys : ∀ x ∈ ys, P x = false → ∀ u, f u x = u :=
      fun x hx => h x (List.mem_cons_of_mem y hx)
    rw [List.filter_cons, List.foldl_cons]
    cases hP : P y with
    | true => rw [if_pos rfl, List.foldl_cons, ih hys]
    | false =>
      rw [if_neg (by simp), h y (List.mem_cons_self y ys) hP u, ih hys]

theorem without_far_peer (sqrt : K → K) (a : ApfAgent K) (j : Nat)
    (hj : j < a.agent_positions.length)
    (h1 : a.param.q * 2 * a.param.radius
      ≤ Vector3d.norm sqrt (a.agent_positions[j] - a.state.position)) :
    apf_controller_without_peer sqrt a j = apf_controller sqrt a := by
  unfold apf_controller_without_peer apf_controller net_force u_obs peer_loop
  rw [foldl_filter_of_id]
  rintro ⟨i, p⟩ hmem hP u
  have hij : i = j := by simpa using hP
  subst hij
  have hget : a.agent_positions[i]? = some p := List.mk_mem_enum_iff_getElem?.mp hmem
  rw [List.getElem?_eq_getElem hj, Option.some.injEq] at hget
  subst hget
  exact peer_step_out_of_range sqrt a u i _ (fun h => absurd h.2 (not_lt.mpr h1))

theorem apf_controller_congr (sqrt : K → K) (a b : ApfAgent K)
    (hparam : b.param = a.param) (hgoal : b.goal = a.goal) (hstate : b.state = a.state)
    (hobs : u_obs sqrt b = u_obs sqrt a) :
    apf_controller sqrt b = apf_controller sqrt a := by
  unfold apf_controller net_force u_goal u_damp
  rw [hparam, hgoal, hstate, hobs]

end OutOfRange

/-- C6: a peer at distance at least `Q = q*2*radius` can be moved to any other place at
distance at least `Q`, or left out of the peer loop, and an obstacle at distance at least
`Q = q*(radius + obstacle_radius)` can be moved to any other such place or removed from the
list, without changing the command returned by `apf_controller`; distance exactly `Q` counts
as out of range. -/
theorem out_of_range_ignored (a : ApfAgent ℝ) :
    (∀ (j : Nat) (hj : j < a.agent_positions.length) (p : Vector3d ℝ),
      a.param.q * 2 * a.param.radius
        ≤ Vector3d.norm Real.sqrt (a.agent_positions[j] - a.state.position) →
      a.param.q * 2 * a.param.radius ≤ Vector3d.norm Real.sqrt (p - a.state.position) →
      apf_controller Real.sqrt { a with agent_positions := a.agent_positions.set j p }
        = apf_controller Real.sqrt a) ∧
    (∀ (j : Nat) (hj : j < a.agent_positions.length),
      a.param.q * 2 * a.param.radius
        ≤ Vector3d.norm Real.sqrt (a.agent_positions[j] - a.state.position) →
      apf_controller_without_peer Real.sqrt a j = apf_controller Real.sqrt a) ∧
    (∀ (k : Nat) (hk : k < a.obstacles.length) (p : Vector3d ℝ),
      a.param.q * (a.param.radius + a.obstacles[k].radius)
        ≤ Vector3d.norm Real.sqrt (a.obstacles[k].position - a.state.position) →
      a.param.q * (a.param.radius + a.obstacles[k].radius)
        ≤ Vector3d.norm Real.sqrt (p - a.state.position) →
      apf_controller Real.sqrt
          { a with obstacles := a.obstacles.set k ⟨p, a.obstacles[k].radius⟩ }
        = apf_controller Real.sqrt a) ∧
    (∀ (k : Nat) (hk : k < a.obstacles.length),
      a.param.q * (a.param.radius + a.obstacles[k].radius)
        ≤ Vector3d.norm Real.sqrt (a.obstacles[k].position - a.state.position) →
      apf_controller Real.sqrt { a with obstacles := a.obstacles.eraseIdx k }
        = apf_controller Real.sqrt a) := by
  refine ⟨?_, ?_, ?_, ?_⟩
  · intro j hj p h1 h2
    exact apf_controller_congr Real.sqrt a _ rfl rfl rfl (u_obs_move_peer Real.sqrt a j hj p h1 h2)
  · intro j hj h1
    exact without_far_peer Real.sqrt a j hj h1
  · intro k hk p h1 h2
    exact apf_controller_congr Real.sqrt a _ rfl rfl rfl
      (u_obs_move_obstacle Real.sqrt a k hk p h1 h2)
  · intro k hk h1
    exact apf_controller_congr Real.sqrt a _ rfl rfl rfl (u_obs_erase_obstacle Real.sqrt a k hk h1)

/-- Witness of C6: the peer of `boundary_agent`, exactly at distance `Q = 0.9`, is moved to
`(2, 0, 0)`, and its obstacle, exactly at distance `Q = 0.9`, is moved to `(0, 0, 4)`. -/
theorem out_of_range_ignored_witness :
    ((boundary_agent ℝ).param.q * 2 * (boundary_agent ℝ).param.radius
        ≤ Vector3d.norm Real.sqrt
            ((⟨0.9, 0, 0⟩ : Vector3d ℝ) - (boundary_agent ℝ).state.position) ∧
      apf_controller Real.sqrt
          { boundary_agent ℝ with
            agent_positions := (boundary_agent ℝ).agent_positions.set 1 ⟨2, 0, 0⟩ }
        = apf_controller Real.sqrt (boundary_agent ℝ)) ∧
    apf_controller Real.sqrt
        { boundary_agent ℝ with
          obstacles := (boundary_agent ℝ).obstacles.set 0 ⟨⟨0, 0, 4⟩, 0.15⟩ }
      = apf_controller Real.sqrt (boundary_agent ℝ) := by
  have hx : ∀ c : ℝ, Vector3d.norm Real.sqrt ((⟨c, 0, 0⟩ : Vector3d ℝ) - ⟨0, 0, 0⟩) = |c| := by
    intro c
    rw [Vector3d.mk_sub_mk]
    simp [Vector3d.norm_axis_x]
  have hy : Vector3d.norm Real.sqrt ((⟨0, 0.9, 0⟩ : Vector3d ℝ) - ⟨0, 0, 0⟩) = 0.9 := by
    rw [Vector3d.mk_sub_mk]
    norm_num [Vector3d.norm_axis_y, abs_of_nonneg]
  have hz : Vector3d.norm Real.sqrt ((⟨0, 0, 4⟩ : Vector3d ℝ) - ⟨0, 0, 0⟩) = 4 := by
    rw [Vector3d.mk_sub_mk]
    simp only [Vector3d.norm, Vector3d.squaredNorm]
    rw [show (0 - 0 : ℝ) * (0 - 0) + (0 - 0) * (0 - 0) + (4 - 0) * (4 - 0) = 4 * 4 by norm_num]
    exact Real.sqrt_mul_self (by norm_num)
  refine ⟨⟨?_, (out_of_range_ignored (boundary_agent ℝ)).1 1 (by simp [boundary_agent])
      ⟨2, 0, 0⟩ ?_ ?_⟩,
    (out_of_range_ignored (boundary_agent ℝ)).2.2.1 0 (by simp [boundary_agent])
      ⟨0, 0, 4⟩ ?_ ?_⟩
  · simp only [boundary_agent, Param.default, hx]
    norm_num [abs_of_nonneg]
  · simp only [boundary_agent, Param.default, List.getElem_cons_succ, List.getElem_cons_zero, hx]
    norm_num [abs_of_nonneg]
  · simp only [boundary_agent, Param.default, hx]
    norm_num
  · simp only [boundary_agent, Param.default, List.getElem_cons_zero, hy]
    norm_num
  · simp only [boundary_agent, Param.default, List.getElem_cons_zero, hz]
    norm_num

/-! ## A failed position lookup -/

/-- C3 at `lost_peer_agent` with `lost_peer_lookup` (the lookup of peer 1 fails): `listen_tf`
stores the origin as the position of peer 1, the command of that tick is `(6, 0, 0)` and the
agent leaves its goal with velocity `(0.12, 0, 0)`, while the command computed with peer 1
left out is zero. -/
theorem lost_peer_tick :
    (listen_tf (lost_peer_lookup ℝ) (lost_peer_agent ℝ)).agent_positions
      = [⟨0.5, 0, 0⟩, ⟨0, 0, 0⟩] ∧
    apf_controller Real.sqrt (listen_tf (lost_peer_lookup ℝ) (lost_peer_agent ℝ)) = ⟨6, 0, 0⟩ ∧
    (timer_tf_callback Real.sqrt (lost_peer_lookup ℝ) (lost_peer_agent ℝ)).state.velocity
      = ⟨0.12, 0, 0⟩ ∧
    apf_controller_without_peer Real.sqrt
      (listen_tf (lost_peer_lookup ℝ) (lost_peer_agent ℝ)) 1 = ⟨0, 0, 0⟩ := by
  have hl : listen_tf (lost_peer_lookup ℝ) (lost_peer_agent ℝ)
      = { lost_peer_agent ℝ with agent_positions := [⟨0.5, 0, 0⟩, ⟨0, 0, 0⟩] } := by
    simp [listen_tf, ApfAgent.number_of_agents, lost_peer_agent, lost_peer_lookup,
      List.range_succ]
  have h0 : Vector3d.norm Real.sqrt ((⟨0.5, 0, 0⟩ : Vector3d ℝ) - ⟨0.5, 0, 0⟩) = 0 := by
    rw [Vector3d.mk_sub_mk]
    norm_num [Vector3d.norm_axis_x]
  have h1 : Vector3d.norm Real.sqrt ((⟨0, 0, 0⟩ : Vector3d ℝ) - ⟨0.5, 0, 0⟩) = 0.5 := by
    rw [Vector3d.mk_sub_mk]
    norm_num [Vector3d.norm_axis_x, abs_of_nonneg]
  have hu : apf_controller Real.sqrt (listen_tf (lost_peer_lookup ℝ) (lost_peer_agent ℝ))
      = ⟨6, 0, 0⟩ := by
    rw [hl]
    simp only [apf_controller, net_force, u_goal, u_obs, peer_loop, obstacle_loop, peer_step,
      repulsion, u_damp, lost_peer_agent, Param.default, List.enum_cons, List.enumFrom_cons,
      List.enumFrom_nil, List.foldl_cons, List.foldl_nil, h0, h1, clamp, clamp_axis]
    norm_num [Vector3d.mk_sub_mk, Vector3d.mk_divs, Vector3d.smul_mk, Vector3d.mk_add_mk,
      Vector3d.zero_def]
  refine ⟨by rw [hl], hu, ?_, ?_⟩
  · unfold timer_tf_callback update_state integrate
    rw [hu, hl]
    simp only [lost_peer_agent, Param.default]
    ext <;> norm_num
  · rw [hl]
    simp only [apf_controller_without_peer, u_goal, obstacle_loop, peer_step,
      u_damp, lost_peer_agent, Param.default, List.enum_cons, List.enumFrom_cons,
      List.enumFrom_nil, List.filter_cons, List.filter_nil, List.foldl_cons, List.foldl_nil,
      h0, clamp, clamp_axis]
    norm_num [Vector3d.mk_sub_mk, Vector3d.mk_divs, Vector3d.smul_mk, Vector3d.mk_add_mk,
      Vector3d.zero_def]

end apf
